import Mathlib

/-!
# Verification of the allstake_2025 reconciliation pipeline

Shallow embedding of `src/allstake_2025.py` (a polars-based payroll
reconciliation script) and proofs about its behaviour.

Modelling conventions:
* A polars `Float64` cell is `Option FloatVal`: `none` is a null cell,
  `FloatVal.nan` is the IEEE NaN value (distinct from null in polars),
  `FloatVal.num q` is a finite float modelled as a rational.
* A polars `Utf8` cell is `Option String`.
* Parsed time-of-day values (from `str.strptime` with format `%I:%M %p`,
  which anchors every parsed value on the same base date) are modelled as
  minutes since midnight, `Option Nat`; an unparseable string is `none`.
* DataFrames are lists of row structures; columnwise expressions become
  per-row functions. Sort stages only reorder rows and are omitted; no
  claim depends on row order.
-/

namespace Allstake

/-- A non-null float cell: either NaN or a finite number (as a rational). -/
inductive FloatVal where
  | nan : FloatVal
  | num : ℚ → FloatVal
deriving DecidableEq, Repr

/-- NaN-propagating multiplication on float values. -/
def FloatVal.mul : FloatVal → FloatVal → FloatVal
  | .num a, .num b => .num (a * b)
  | _, _ => .nan

/-- NaN-propagating addition on float values. -/
def FloatVal.add : FloatVal → FloatVal → FloatVal
  | .num a, .num b => .num (a + b)
  | _, _ => .nan

/-- NaN-propagating subtraction on float values. -/
def FloatVal.sub : FloatVal → FloatVal → FloatVal
  | .num a, .num b => .num (a - b)
  | _, _ => .nan

/-- polars `fill_null(v)`: replace a null cell by `v`, keep the rest. -/
def fillNullV (x : Option FloatVal) (v : FloatVal) : FloatVal :=
  x.getD v

/-- polars `fill_nan(v)` on a non-null value: replace NaN by `v`. -/
def fillNanV (x : FloatVal) (v : FloatVal) : FloatVal :=
  match x with
  | .nan => v
  | y => y

/-- polars `Expr.fill_nan(repl)` where `repl` is another (possibly null)
column cell: replace a NaN cell by the replacement cell, keep null and
numeric cells unchanged. -/
def fillNanCell (x : Option FloatVal) (repl : Option FloatVal) : Option FloatVal :=
  match x with
  | some .nan => repl
  | y => y

/-- polars `coalesce` of two cells: the first non-null one (NaN is not null). -/
def coalesce2 (x y : Option FloatVal) : Option FloatVal :=
  match x with
  | some v => some v
  | none => y

/-! ## BookingNormalizer (`bookingTransformations`, src lines 31-58)

A booking row after the parse/cast stage (src lines 34-40): times parsed
to minutes since midnight, numeric columns cast to `Float64`. -/

structure BookingRow where
  arrival_time : Option Nat
  finish_time : Option Nat
  duration : Option FloatVal
  hours_worked : Option FloatVal
deriving DecidableEq, Repr

/-- The `time_based_duration` expression (src lines 43-49):
`when(finish < arrival).then((finish + 1 day - arrival).dt.total_hours())
.otherwise((finish - arrival).dt.total_hours())`.
A null comparison takes the `otherwise` branch, whose subtraction is again
null, so a missing time yields null. `dt.total_hours` truncates toward
zero; the corrected difference is non-negative, so this is `Nat` division
of the minute difference by 60. -/
def timeBasedDuration (arrival finish : Option Nat) : Option Nat :=
  match arrival, finish with
  | some a, some f =>
      if f < a then some ((f + 1440 - a) / 60) else some ((f - a) / 60)
  | _, _ => none

/-- The final `duration` column (src lines 52-58):
`coalesce(col("duration").fill_nan(col("hours_worked")), time_based_duration)`.
The integer time-based column is upcast to float inside `coalesce`. -/
def bookingDuration (r : BookingRow) : Option FloatVal :=
  coalesce2 (fillNanCell r.duration r.hours_worked)
    ((timeBasedDuration r.arrival_time r.finish_time).map (fun n => FloatVal.num (n : ℚ)))

/-! ## Numeric string parsing (polars `cast(Float64, strict=False)` on Utf8)

Model of the strict-less string-to-float cast on decimal spellings: an
optional sign, then digits with at most one decimal point and at least one
digit. Anything else (in particular the empty string, a bare sign or dot,
several dots, or any string with whitespace or other characters) casts to
null. Non-finite spellings (`inf`, `nan`) and scientific notation are outside
this decimal grammar and outside every claim. -/

/-- Strip leading and trailing whitespace from a character list
(the default behaviour of `str.strip_chars()`). -/
def trimChars (l : List Char) : List Char :=
  ((l.dropWhile Char.isWhitespace).reverse.dropWhile Char.isWhitespace).reverse

/-- Whitespace trimming on strings. -/
def strTrim (s : String) : String :=
  String.mk (trimChars s.data)

/-- Numeric value of a list of decimal digit characters. -/
def digitsToNat (l : List Char) : Nat :=
  l.foldl (fun n c => 10 * n + (c.toNat - 48)) 0

/-- Split a character list at the first `.`: the part before it, and
(if a dot occurs) the part after it. -/
def splitDot : List Char → List Char × Option (List Char)
  | [] => ([], none)
  | c :: rest =>
      if c = '.' then ([], some rest)
      else
        let p := splitDot rest
        (c :: p.1, p.2)

/-- Parse an unsigned decimal spelling: digits, or digits with one dot,
with at least one digit overall. -/
def parseUnsigned (l : List Char) : Option ℚ :=
  let p := splitDot l
  match p.2 with
  | none =>
      if p.1 ≠ [] ∧ p.1.all Char.isDigit then some (digitsToNat p.1 : ℚ) else none
  | some frac =>
      if frac.contains '.' then none
      else if (p.1 ≠ [] ∨ frac ≠ []) ∧ p.1.all Char.isDigit ∧ frac.all Char.isDigit then
        some ((digitsToNat p.1 : ℚ) + (digitsToNat frac : ℚ) / (10 : ℚ) ^ frac.length)
      else none

/-- String-to-float cast, `strict=False`: unparsable strings become null. -/
def parseFloat (s : String) : Option ℚ :=
  match s.data with
  | [] => none
  | c :: rest =>
      if c = '-' then (parseUnsigned rest).map (fun q => -q)
      else if c = '+' then parseUnsigned rest
      else parseUnsigned (c :: rest)

/-! ## FinancialsNormalizer (`transformFinancialsTbl`, src lines 60-83) -/

/-- The fixed list of numeric columns normalized by `transformFinancialsTbl`
(src lines 63-71). -/
def financialsNumericCols : List String :=
  ["counter_cost_hr", "scanner_cost_hr", "auditor_controller_cost_hr",
   "assistant_co_ordinator_co_hr", "co_ordinator_cost_hr",
   "updates_amount", "paysheet_amount"]

/-- Per-cell normalization (src lines 72-81):
`when(col.str.strip_chars() == "").then(None).otherwise(col).cast(Float64, strict=False)`.
A null cell stays null (the null comparison takes the `otherwise` branch and
the cast of null is null); a cell that is empty after trimming becomes null;
any other cell is cast, non-numeric content becoming null. -/
def transformFinCell (x : Option String) : Option ℚ :=
  match x with
  | none => none
  | some s => if strTrim s = "" then none else parseFloat s

/-- Columnwise application of the per-cell normalization: each column in
`financialsNumericCols` is mapped through `transformFinCell`. -/
def transformFinColumn (col : List (Option String)) : List (Option ℚ) :=
  col.map transformFinCell

/-! ## AmountCalculator (`getAmountPaid`, src lines 100-140) -/

/-- A row of the booking-with-rates joined table, restricted to the columns
`getAmountPaid` reads. `job_position` is an enum cell (possibly null). -/
structure AmountRow where
  job_position : Option String
  duration : Option FloatVal
  bonuses : Option FloatVal
  deductions : Option FloatVal
  counter_cost_hr : Option FloatVal
  scanner_cost_hr : Option FloatVal
  auditor_controller_cost_hr : Option FloatVal
  assistant_co_ordinator_co_hr : Option FloatVal
  co_ordinator_cost_hr : Option FloatVal
deriving DecidableEq, Repr

/-- The role-to-rate-column mapping built as a `when`-chain (src lines
103-110 and 119-120), ending in `otherwise(0.0)` (line 124). A null
`job_position` fails every equality test and takes the `otherwise` branch. -/
def whenChainRate (r : AmountRow) : Option FloatVal :=
  if r.job_position = some "COUNTER" then r.counter_cost_hr
  else if r.job_position = some "SCANNER" then r.scanner_cost_hr
  else if r.job_position = some "AUDITOR" then r.auditor_controller_cost_hr
  else if r.job_position = some "CONTROLLER" then r.auditor_controller_cost_hr
  else if r.job_position = some "ASS COORD" then r.assistant_co_ordinator_co_hr
  else if r.job_position = some "COORD" then r.co_ordinator_cost_hr
  else some (.num 0)

/-- `hourly_rate_expr` (src lines 122-128): the chain result cast to float,
then `fill_null(0.0).fill_nan(0.0)`; always a finite number. -/
def hourlyRate (r : AmountRow) : FloatVal :=
  fillNanV (fillNullV (whenChainRate r) (.num 0)) (.num 0)

/-- The rational value of the resolved hourly rate (always finite). -/
def resolvedRateQ (r : AmountRow) : ℚ :=
  match hourlyRate r with
  | .num q => q
  | .nan => 0

/-- `cast(Float64, strict=False).fill_null(0.0).fill_nan(0.0)` applied to
an operand column cell (src lines 136-138). -/
def fillZero (x : Option FloatVal) : FloatVal :=
  fillNanV (fillNullV x (.num 0)) (.num 0)

/-- The rational a cell contributes to the formula: its value when finite,
`0` when null or NaN. -/
def toZeroQ (x : Option FloatVal) : ℚ :=
  match x with
  | some (.num q) => q
  | _ => 0

/-- The `amount_paid` expression (src lines 133-139):
`hourly_rate_expr * duration.fill(0) + bonuses.fill(0) - deductions.fill(0)`
with NaN-propagating float arithmetic. -/
def amount_paid (r : AmountRow) : FloatVal :=
  ((hourlyRate r).mul (fillZero r.duration)).add (fillZero r.bonuses)
    |>.sub (fillZero r.deductions)

/-- The values of the role-to-column map (src lines 104-110), in order. -/
def rateConditionCols : List String :=
  ["scanner_cost_hr", "auditor_controller_cost_hr", "auditor_controller_cost_hr",
   "assistant_co_ordinator_co_hr", "co_ordinator_cost_hr"]

/-- The required-column set of the defensive check (src line 113):
`{"job_position","duration","bonuses","deductions","counter_cost_hr"} ∪ set(conditions.values())`,
as a duplicate-free list. -/
def requiredCols : List String :=
  (["job_position", "duration", "bonuses", "deductions", "counter_cost_hr"]
    ++ rateConditionCols).dedup

/-- `missing = required_cols - set(df.columns)` (src line 114). -/
def missingCols (columns : List String) : List String :=
  requiredCols.filter (fun c => ¬ columns.contains c)

/-- `getAmountPaid` with its defensive schema check (src lines 112-117,
133-140): raises `ValueError` naming the missing columns when any required
column is absent, otherwise computes `amount_paid` for every row. -/
def getAmountPaid (columns : List String) (rows : List AmountRow) :
    Except (List String) (List (AmountRow × FloatVal)) :=
  if missingCols columns = [] then
    .ok (rows.map (fun r => (r, amount_paid r)))
  else
    .error (missingCols columns)

/-! ## PaysheetFileParser (`getPaysheetTotal`, src lines 142-170) -/

/-- A data row of a paysheet file, reduced to the two columns read
(src lines 145-150), both as raw text cells. -/
structure PaysheetRow where
  invoice : Option String
  amount : Option String
deriving DecidableEq, Repr

/-- Kleene (three-valued) conjunction of boolean cells, as polars `&`. -/
def kleeneAnd : Option Bool → Option Bool → Option Bool
  | some false, _ => some false
  | _, some false => some false
  | some true, some true => some true
  | _, _ => none

/-- The filter mask (src line 151):
`(col("AMOUNT PAID") != "*") & ~col("INVOICE NO.").is_null()`.
The inequality with a null amount is null; `is_null` is never null. -/
def filterMask (r : PaysheetRow) : Option Bool :=
  kleeneAnd (r.amount.map (fun s => decide (s ≠ "*"))) (some (!r.invoice.isNone))

/-- `DataFrame.filter` keeps a row only when its mask is true (a null mask
drops the row). -/
def keepRow (r : PaysheetRow) : Bool :=
  filterMask r = some true

/-- Amount cleaning (src line 157): `str.replace_all(r"[^0-9\.\-]+", "")`,
i.e. delete every character that is not a digit, a period or a minus sign. -/
def cleanAmount (s : String) : String :=
  String.mk (s.data.filter (fun c => c.isDigit || c = '.' || c = '-'))

/-- The cleaned-and-cast amount cell (src lines 156-160): clean, trim
(`str.strip_chars()`), then cast to float with `strict=False`. -/
def cleanCell (amt : Option String) : Option ℚ :=
  amt.bind (fun s => parseFloat (strTrim (cleanAmount s)))

/-- The `select` stage (src lines 154-161) applied after the filter: the
invoice cell kept as is, the amount cell cleaned. -/
def selectStage (rows : List PaysheetRow) : List (Option String × Option ℚ) :=
  (rows.filter keepRow).map (fun r => (r.invoice, cleanCell r.amount))

/-- The distinct group keys of the aggregation (src lines 163-169). -/
def groupKeys (l : List (Option String × Option ℚ)) : List (Option String) :=
  (l.map Prod.fst).dedup

/-- Per-group sum: polars `sum` ignores nulls and returns 0 on an all-null
or empty group. -/
def sumGroup (l : List (Option String × Option ℚ)) (k : Option String) : ℚ :=
  (l.filter (fun p => p.1 = k)).foldl (fun acc p => acc + p.2.getD 0) 0

/-- `getPaysheetTotal` on the data rows of one file: filter, clean, group
by invoice number, sum per group — one output row per distinct invoice. -/
def getPaysheetTotal (rows : List PaysheetRow) : List (Option String × ℚ) :=
  let sel := selectStage rows
  (groupKeys sel).map (fun k => (k, sumGroup sel k))

/-! ## ReconciliationPipeline tail (src lines 237-264) -/

/-- A calendar date. -/
structure CalDate where
  year : Nat
  month : Nat
  day : Nat
deriving DecidableEq, Repr

/-- Chronological order on calendar dates (lexicographic). -/
def CalDate.le (a b : CalDate) : Bool :=
  a.year < b.year ∨ (a.year = b.year ∧
    (a.month < b.month ∨ (a.month = b.month ∧ a.day ≤ b.day)))

/-- The lower bound of the inspection window, `dt.date(2025, 3, 1)`
(src line 252). -/
def windowLo : CalDate := ⟨2025, 3, 1⟩

/-- The upper bound of the inspection window, `dt.date(2025, 10, 31)`
(src line 252). -/
def windowHi : CalDate := ⟨2025, 10, 31⟩

/-- `is_between` with closed bounds (the polars default). -/
def dateInWindow (d : CalDate) : Bool :=
  CalDate.le windowLo d && CalDate.le d windowHi

/-- A row of `compare_stocktake_totals_df` after the jobs join
(src lines 237-247). -/
structure CompareRow where
  job_number : String
  updates_totals : ℚ
  updates_amount : Option ℚ
  paysheet_amount : Option ℚ
  invoice_number : Option String
  name : Option String
  date_of_job : Option CalDate
deriving DecidableEq, Repr

/-- A row of the aggregated paysheet table `main_ps_df`. -/
structure PsTotalRow where
  invoice_number : Option String
  stocktake_totals : ℚ
deriving DecidableEq, Repr

/-- A row of the final joined reconciliation table. -/
structure FinalRow where
  job_number : String
  updates_totals : ℚ
  updates_amount : Option ℚ
  paysheet_amount : Option ℚ
  invoice_number : Option String
  name : Option String
  date_of_job : Option CalDate
  stocktake_totals : ℚ
deriving DecidableEq, Repr

/-- The date-window filter producing `compare_stk_totals_filtered_df`
(src lines 251-253): `filter(col("date_of_job").is_between(lo, hi))`.
A null date gives a null mask and the row is dropped. -/
def compareStkTotalsFiltered (rows : List CompareRow) : List CompareRow :=
  rows.filter (fun r =>
    match r.date_of_job with
    | some d => dateInWindow d
    | none => false)

/-- Inner join of the comparison table with the paysheet totals on
`invoice_number` (null keys do not match, the polars default). -/
def joinOnInvoice (left : List CompareRow) (right : List PsTotalRow) :
    List FinalRow :=
  left.flatMap (fun l => right.filterMap (fun r =>
    match l.invoice_number, r.invoice_number with
    | some a, some b =>
        if a = b then
          some ⟨l.job_number, l.updates_totals, l.updates_amount,
                l.paysheet_amount, l.invoice_number, l.name, l.date_of_job,
                r.stocktake_totals⟩
        else none
    | _, _ => none))

/-- `final_das_jobs_df` (src line 264): the UNFILTERED comparison table
`compare_stocktake_totals_df` joined with `main_ps_df` on invoice number —
the date-filtered table of src lines 251-253 is written to a parquet
snapshot (line 257) but is not the left operand of this join. -/
def finalDasJobs (compare : List CompareRow) (ps : List PsTotalRow) :
    List FinalRow :=
  joinOnInvoice compare ps

/-! ## TableIngestor (`ingest_table`, src lines 22-29) -/

/-- `ingest_table`: a single attempt at the underlying query (no retry).
A successful query returns its full result unchanged; a failing query is
re-raised as `RuntimeError(f"Database read failed from {e}")`, whose
message carries the stable kind and embeds the original cause. -/
def ingest_table {α : Type} (query : Except String α) : Except String α :=
  match query with
  | .ok t => .ok t
  | .error e => .error ("Database read failed from " ++ e)

/-! ## Helper lemmas -/

theorem fillZero_eq (x : Option FloatVal) : fillZero x = .num (toZeroQ x) := by
  rcases x with _ | v
  · rfl
  · cases v <;> rfl

theorem hourlyRate_eq (r : AmountRow) : hourlyRate r = .num (resolvedRateQ r) := by
  rcases hw : whenChainRate r with _ | v
  · simp [hourlyRate, resolvedRateQ, fillNullV, fillNanV, hw]
  · cases v <;> simp [hourlyRate, resolvedRateQ, fillNullV, fillNanV, hw]

theorem mul_num (a b : ℚ) : FloatVal.mul (.num a) (.num b) = .num (a * b) := rfl

theorem add_num (a b : ℚ) : FloatVal.add (.num a) (.num b) = .num (a + b) := rfl

theorem sub_num (a b : ℚ) : FloatVal.sub (.num a) (.num b) = .num (a - b) := rfl

/-- The amount-paid expression always produces the finite number given by
the spec formula, with null/NaN operands contributing 0. -/
theorem amount_paid_eq (r : AmountRow) :
    amount_paid r =
      .num (resolvedRateQ r * toZeroQ r.duration + toZeroQ r.bonuses - toZeroQ r.deductions) := by
  unfold amount_paid
  rw [hourlyRate_eq, fillZero_eq, fillZero_eq, fillZero_eq, mul_num, add_num, sub_num]

theorem resolvedRate_chain (r : AmountRow) :
    resolvedRateQ r = toZeroQ (whenChainRate r) := by
  rcases hw : whenChainRate r with _ | v
  · simp [resolvedRateQ, hourlyRate, fillNullV, fillNanV, hw, toZeroQ]
  · cases v <;> simp [resolvedRateQ, hourlyRate, fillNullV, fillNanV, hw, toZeroQ]

theorem mem_missingCols (columns : List String) (c : String) :
    c ∈ missingCols columns ↔ c ∈ requiredCols ∧ c ∉ columns := by
  simp [missingCols, List.mem_filter]

theorem foldl_add_getD (l : List (Option String × Option ℚ)) (acc : ℚ) :
    l.foldl (fun a p => a + p.2.getD 0) acc = acc + (l.filterMap Prod.snd).sum := by
  induction l generalizing acc with
  | nil => simp
  | cons p t ih =>
    rcases p with ⟨k, _ | q⟩
    · simp [List.foldl_cons, List.filterMap_cons, ih]
    · simp [List.foldl_cons, List.filterMap_cons, ih]
      ring

/-- A group total is the sum of the parseable amounts of its rows: a null
(unparsable) amount contributes nothing, while its row still belongs to
the group. -/
theorem sumGroup_eq (l : List (Option String × Option ℚ)) (k : Option String) :
    sumGroup l k = ((l.filter (fun p => p.1 = k)).filterMap Prod.snd).sum := by
  unfold sumGroup
  rw [foldl_add_getD]
  ring

theorem getPaysheetTotal_keys (rows : List PaysheetRow) :
    (getPaysheetTotal rows).map Prod.fst = groupKeys (selectStage rows) := by
  unfold getPaysheetTotal
  rw [List.map_map]
  exact List.map_id _

theorem keep_amount_isSome (x : PaysheetRow) (hk : keepRow x = true) :
    x.amount ≠ none := by
  intro ha
  rcases hi : x.invoice with _ | v <;>
    simp [keepRow, filterMask, ha, hi, kleeneAnd] at hk

/-! ## Claims -/

/-- A comparison-table row whose job date lies outside the
2025-03-01..2025-10-31 inspection window. -/
def c1CompareRow : CompareRow :=
  ⟨"J9", 0, none, none, some "INV9", some "Stocktake X", some ⟨2026, 1, 1⟩⟩

/-- A paysheet aggregate row carrying the matching invoice number. -/
def c1PsRow : PsTotalRow := ⟨some "INV9", 100⟩

/-- Claim C1 (code divergence): the claim says the final reconciliation
table is the inner join of the DATE-FILTERED comparison table with the
paysheet totals, so every final row's job date lies inside the window.
The code (src line 264) joins the unfiltered `compare_stocktake_totals_df`
instead: a row dated 2026-01-01 — outside the window, removed by the
filter stage and absent from the join of the filtered table — still
appears in `final_das_jobs_df`. -/
theorem claim_C1_code_divergence :
    dateInWindow ⟨2026, 1, 1⟩ = false ∧
    compareStkTotalsFiltered [c1CompareRow] = [] ∧
    joinOnInvoice (compareStkTotalsFiltered [c1CompareRow]) [c1PsRow] = [] ∧
    finalDasJobs [c1CompareRow] [c1PsRow] =
      [⟨"J9", 0, none, none, some "INV9", some "Stocktake X", some ⟨2026, 1, 1⟩, 100⟩] := by
  refine ⟨by decide, ?_, ?_, ?_⟩ <;>
    simp [c1CompareRow, c1PsRow, compareStkTotalsFiltered, dateInWindow,
      windowLo, windowHi, CalDate.le, finalDasJobs, joinOnInvoice]

/-- A booking row with a truly null duration, present hours_worked of 5,
and times 9:00 to 10:00. -/
def c2Row : BookingRow := ⟨some 540, some 600, none, some (.num 5)⟩

/-- Claim C2 (counterexample): a row whose duration is null (missing) and
whose hours_worked is the number 5 gets duration 1 (the time-based value),
not 5 — `fill_nan` replaces only NaN, so a null duration bypasses
hours_worked, contradicting the claim that null and NaN durations are
treated alike. -/
theorem claim_C2_counterexample :
    c2Row.duration = none ∧ c2Row.hours_worked = some (.num 5) ∧
    bookingDuration c2Row = some (.num 1) ∧
    bookingDuration c2Row ≠ some (.num 5) := by
  refine ⟨rfl, rfl, ?_, ?_⟩ <;>
    simp [c2Row, bookingDuration, fillNanCell, coalesce2, timeBasedDuration]

/-- Claim C2 (amended): only a NaN duration is replaced by hours_worked; a
null duration falls through to the time-based duration (hours_worked is
not consulted); a present numeric duration is kept unchanged. -/
theorem claim_C2_amended (r : BookingRow) :
    (∀ q : ℚ, r.duration = some .nan → r.hours_worked = some (.num q) →
      bookingDuration r = some (.num q)) ∧
    (∀ q : ℚ, r.duration = some (.num q) → bookingDuration r = some (.num q)) ∧
    (r.duration = none →
      bookingDuration r =
        (timeBasedDuration r.arrival_time r.finish_time).map
          (fun n => FloatVal.num (n : ℚ))) := by
  refine ⟨?_, ?_, ?_⟩
  · intro q hd hh
    simp [bookingDuration, fillNanCell, hd, hh, coalesce2]
  · intro q hd
    simp [bookingDuration, fillNanCell, hd, coalesce2]
  · intro hd
    simp [bookingDuration, fillNanCell, hd, coalesce2]

/-- Claim C2 (amended) witness: a NaN duration with hours_worked 5 yields
duration 5. -/
theorem claim_C2_amended_witness :
    bookingDuration ⟨none, none, some .nan, some (.num 5)⟩ = some (.num 5) :=
  (claim_C2_amended ⟨none, none, some .nan, some (.num 5)⟩).1 5 rfl rfl

/-- Claim C3: a row missing duration (null, or NaN with no hours_worked to
fill it) and missing hours_worked, with parseable arrival and finish
times, gets the time-based duration: the minute difference with one full
day (1440 minutes) added to the finish time first when finish < arrival,
divided by 60; in particular arrival 22:00 with finish 01:00 yields 3
hours, not -21. -/
theorem claim_C3_time_based_fallback (r : BookingRow) (a f : Nat)
    (hd : r.duration = none ∨ r.duration = some .nan)
    (hh : r.hours_worked = none)
    (ha : r.arrival_time = some a) (hf : r.finish_time = some f) :
    bookingDuration r =
      some (.num (((if f < a then f + 1440 - a else f - a) / 60 : Nat) : ℚ)) ∧
    bookingDuration ⟨some 1320, some 60, none, none⟩ = some (.num 3) := by
  constructor
  · rcases hd with hd | hd <;>
      simp only [bookingDuration, fillNanCell, hd, hh, coalesce2,
        timeBasedDuration, ha, hf] <;>
      split <;> simp
  · simp [bookingDuration, fillNanCell, coalesce2, timeBasedDuration]

/-- Claim C3 witness: arrival 22:00 (minute 1320), finish 01:00 (minute
60) gives duration 3. -/
theorem claim_C3_witness :
    bookingDuration ⟨some 1320, some 60, none, none⟩ = some (.num 3) := by
  have h := (claim_C3_time_based_fallback ⟨some 1320, some 60, none, none⟩
    1320 60 (Or.inl rfl) rfl rfl rfl).1
  simpa using h

/-- Claim C4: amount_paid equals resolved_rate × duration + bonuses −
deductions, where null or NaN operands count as 0; the role map is
COUNTER→counter_cost_hr, SCANNER→scanner_cost_hr,
AUDITOR/CONTROLLER→auditor_controller_cost_hr,
ASS COORD→assistant_co_ordinator_co_hr, COORD→co_ordinator_cost_hr, with
an unrecognized, empty or null role resolving to rate 0; the result is
always a finite number, and 0 when every input is missing. -/
theorem claim_C4_amount_formula (r : AmountRow) :
    amount_paid r =
      .num (resolvedRateQ r * toZeroQ r.duration + toZeroQ r.bonuses - toZeroQ r.deductions) ∧
    (r.job_position = some "COUNTER" → resolvedRateQ r = toZeroQ r.counter_cost_hr) ∧
    (r.job_position = some "SCANNER" → resolvedRateQ r = toZeroQ r.scanner_cost_hr) ∧
    (r.job_position = some "AUDITOR" → resolvedRateQ r = toZeroQ r.auditor_controller_cost_hr) ∧
    (r.job_position = some "CONTROLLER" → resolvedRateQ r = toZeroQ r.auditor_controller_cost_hr) ∧
    (r.job_position = some "ASS COORD" → resolvedRateQ r = toZeroQ r.assistant_co_ordinator_co_hr) ∧
    (r.job_position = some "COORD" → resolvedRateQ r = toZeroQ r.co_ordinator_cost_hr) ∧
    (∀ s : String, r.job_position = some s →
      s ∉ (["COUNTER", "SCANNER", "AUDITOR", "CONTROLLER", "ASS COORD", "COORD"] : List String) →
      resolvedRateQ r = 0) ∧
    (r.job_position = none → resolvedRateQ r = 0) ∧
    (r.duration = none ∧ r.bonuses = none ∧ r.deductions = none ∧
      r.counter_cost_hr = none ∧ r.scanner_cost_hr = none ∧
      r.auditor_controller_cost_hr = none ∧ r.assistant_co_ordinator_co_hr = none ∧
      r.co_ordinator_cost_hr = none → amount_paid r = .num 0) := by
  refine ⟨amount_paid_eq r, ?_, ?_, ?_, ?_, ?_, ?_, ?_, ?_, ?_⟩
  · intro h; simp [resolvedRate_chain, whenChainRate, h]
  · intro h; simp [resolvedRate_chain, whenChainRate, h]
  · intro h; simp [resolvedRate_chain, whenChainRate, h]
  · intro h; simp [resolvedRate_chain, whenChainRate, h]
  · intro h; simp [resolvedRate_chain, whenChainRate, h]
  · intro h; simp [resolvedRate_chain, whenChainRate, h]
  · intro s h hs
    simp only [List.mem_cons, List.not_mem_nil, or_false, not_or] at hs
    obtain ⟨h1, h2, h3, h4, h5, h6⟩ := hs
    simp [resolvedRate_chain, whenChainRate, h, h1, h2, h3, h4, h5, h6, toZeroQ]
  · intro h; simp [resolvedRate_chain, whenChainRate, h, toZeroQ]
  · rintro ⟨h1, h2, h3, h4, h5, h6, h7, h8⟩
    rw [amount_paid_eq, resolvedRate_chain]
    rcases hjp : whenChainRate r <;>
      simp_all [whenChainRate, toZeroQ]

/-- The worked example row of the spec: SCANNER at 15/hr, 8 hours, 10
bonus, 5 deduction. -/
def scanRow : AmountRow :=
  ⟨some "SCANNER", some (.num 8), some (.num 10), some (.num 5),
   none, some (.num 15), none, none, none⟩

/-- Claim C4 witness: the SCANNER example computes 15×8+10−5 = 125. -/
theorem claim_C4_witness :
    amount_paid scanRow = .num 125 ∧ resolvedRateQ scanRow = 15 := by
  have h := claim_C4_amount_formula scanRow
  have hrate : resolvedRateQ scanRow = 15 := by
    have h2 := h.2.2.1 rfl
    simpa [toZeroQ, scanRow] using h2
  refine ⟨?_, hrate⟩
  rw [h.1, hrate]
  norm_num [toZeroQ, scanRow]

/-- Claim C5: the schema check fails exactly when a required column is
absent; on failure the error carries the missing columns, each exactly
once; when all required columns are present the computation proceeds
without raising. -/
theorem claim_C5_schema_check (columns : List String) (rows : List AmountRow) :
    ((∃ err, getAmountPaid columns rows = .error err) ↔
      ∃ c ∈ requiredCols, c ∉ columns) ∧
    ((∀ c ∈ requiredCols, c ∈ columns) →
      getAmountPaid columns rows = .ok (rows.map (fun r => (r, amount_paid r)))) ∧
    (missingCols columns ≠ [] →
      getAmountPaid columns rows = .error (missingCols columns)) ∧
    (missingCols columns).Nodup ∧
    (∀ c, c ∈ missingCols columns ↔ c ∈ requiredCols ∧ c ∉ columns) ∧
    (∀ c ∈ missingCols columns, (missingCols columns).count c = 1) := by
  have hnodup : (missingCols columns).Nodup := by
    have hreq : requiredCols.Nodup := by decide
    exact hreq.filter _
  have hempty : missingCols columns = [] ↔ ∀ c ∈ requiredCols, c ∈ columns := by
    constructor
    · intro h c hc
      by_contra hnc
      have hmem : c ∈ missingCols columns := (mem_missingCols columns c).mpr ⟨hc, hnc⟩
      simp [h] at hmem
    · intro h
      rcases he : missingCols columns with _ | ⟨c, rest⟩
      · rfl
      · exfalso
        have hm : c ∈ missingCols columns := by
          rw [he]
          exact List.mem_cons_self c rest
        rcases (mem_missingCols columns c).mp hm with ⟨hc, hnc⟩
        exact hnc (h c hc)
  refine ⟨?_, ?_, ?_, hnodup, mem_missingCols columns, ?_⟩
  · constructor
    · rintro ⟨err, herr⟩
      by_contra hno
      push_neg at hno
      have h0 : missingCols columns = [] := hempty.mpr hno
      simp [getAmountPaid, h0] at herr
    · rintro ⟨c, hc, hnc⟩
      have hne : missingCols columns ≠ [] := by
        intro h0
        exact hnc (hempty.mp h0 c hc)
      exact ⟨missingCols columns, by simp [getAmountPaid, hne]⟩
  · intro h
    simp [getAmountPaid, hempty.mpr h]
  · intro hne
    simp [getAmountPaid, hne]
  · intro c hc
    have h1 : 1 ≤ (missingCols columns).count c := List.count_pos_iff.mpr hc
    have h2 : (missingCols columns).count c ≤ 1 :=
      List.nodup_iff_count_le_one.mp hnodup c
    omega

/-- A column list with every required column except `deductions`. -/
def c5Cols : List String :=
  ["job_position", "duration", "bonuses", "counter_cost_hr", "scanner_cost_hr",
   "auditor_controller_cost_hr", "assistant_co_ordinator_co_hr", "co_ordinator_cost_hr"]

/-- Claim C5 witness: a table missing only `deductions` fails with exactly
that column named. -/
theorem claim_C5_witness : getAmountPaid c5Cols [] = .error ["deductions"] := by
  have h := (claim_C5_schema_check c5Cols []).2.2.1
  have hm : missingCols c5Cols = ["deductions"] := by decide
  rw [hm] at h
  exact h (by decide)

/-- Claim C6: rows whose amount is the sentinel "*" or whose invoice is
null are dropped; "$1,234.56" cleans to 1234.56; the output has exactly
one row per distinct remaining invoice number; each output total is the
sum of the parseable cleaned amounts of its group (an unparsable amount
becomes null and contributes 0 while its invoice stays in the aggregate);
and two rows on one invoice with amounts 100.0 and 50.0 aggregate to
150.0. -/
theorem claim_C6_paysheet_total (rows : List PaysheetRow) :
    (∀ r ∈ rows, (r.amount = some "*" ∨ r.invoice = none) → keepRow r = false) ∧
    cleanCell (some "$1,234.56") = some (1234.56 : ℚ) ∧
    ((getPaysheetTotal rows).map Prod.fst).Nodup ∧
    (∀ k, k ∈ (getPaysheetTotal rows).map Prod.fst ↔
      ∃ r ∈ rows, keepRow r = true ∧ r.invoice = k) ∧
    (∀ k total, (k, total) ∈ getPaysheetTotal rows →
      total = (((selectStage rows).filter (fun p => p.1 = k)).filterMap Prod.snd).sum) ∧
    getPaysheetTotal [⟨some "I1", some "100.0"⟩, ⟨some "I1", some "50.0"⟩] =
      [(some "I1", 150)] := by
  refine ⟨?_, ?_, ?_, ?_, ?_, ?_⟩
  · rintro r hr (h | h)
    · simp [keepRow, filterMask, h, kleeneAnd]
    · rcases ha : r.amount with _ | s
      · simp [keepRow, filterMask, h, ha, kleeneAnd]
      · by_cases hs : s = "*" <;> simp [keepRow, filterMask, h, ha, kleeneAnd, hs]
  · have hc : strTrim (cleanAmount "$1,234.56") = "1234.56" := by decide
    have h : splitDot "1234.56".data = (['1','2','3','4'], some ['5','6']) := by decide
    simp [cleanCell, hc, parseFloat, parseUnsigned, h, digitsToNat]
    norm_num
  · rw [getPaysheetTotal_keys]
    exact List.nodup_dedup _
  · intro k
    rw [getPaysheetTotal_keys]
    simp only [groupKeys, selectStage, List.mem_dedup, List.mem_map, List.mem_filter]
    constructor
    · rintro ⟨a, ⟨r, ⟨hr, hkeep⟩, rfl⟩, hk⟩
      exact ⟨r, hr, hkeep, hk⟩
    · rintro ⟨r, hr, hkeep, hk⟩
      exact ⟨(r.invoice, cleanCell r.amount), ⟨r, ⟨hr, hkeep⟩, rfl⟩, hk⟩
  · intro k total hmem
    unfold getPaysheetTotal at hmem
    simp only [List.mem_map] at hmem
    rcases hmem with ⟨k2, hk2, heq⟩
    rcases heq
    exact sumGroup_eq _ _
  · have c1 : cleanCell (some "100.0") = some 100 := by
      have hc : strTrim (cleanAmount "100.0") = "100.0" := by decide
      have h : splitDot "100.0".data = (['1','0','0'], some ['0']) := by decide
      simp [cleanCell, hc, parseFloat, parseUnsigned, h, digitsToNat]
    have c2 : cleanCell (some "50.0") = some 50 := by
      have hc : strTrim (cleanAmount "50.0") = "50.0" := by decide
      have h : splitDot "50.0".data = (['5','0'], some ['0']) := by decide
      simp [cleanCell, hc, parseFloat, parseUnsigned, h, digitsToNat]
    have k1 : keepRow ⟨some "I1", some "100.0"⟩ = true := by decide
    have k2 : keepRow ⟨some "I1", some "50.0"⟩ = true := by decide
    simp [getPaysheetTotal, selectStage, groupKeys, sumGroup, k1, k2, c1, c2,
      List.filter, List.dedup]
    norm_num

/-- A paysheet row with the "*" sentinel amount. -/
def psStar : PaysheetRow := ⟨some "I2", some "*"⟩

/-- Claim C6 witness: the 100.0/50.0 example aggregates to 150, and a
sentinel row is dropped. -/
theorem claim_C6_witness :
    getPaysheetTotal [⟨some "I1", some "100.0"⟩, ⟨some "I1", some "50.0"⟩] =
      [(some "I1", 150)] ∧
    keepRow psStar = false := by
  constructor
  · exact (claim_C6_paysheet_total []).2.2.2.2.2
  · exact (claim_C6_paysheet_total [psStar]).1 psStar
      (List.mem_singleton.mpr rfl) (Or.inl rfl)

/-- Claim C7: each of the seven configured numeric columns is normalized
cellwise; a null cell stays null, a cell that is empty after trimming
becomes null, any other cell gets the strict-less float cast (non-numeric
content becomes null, numeric strings their float value), and every
output cell is a float or a true null — never a blank string. -/
theorem claim_C7_financials_normalize :
    financialsNumericCols =
      ["counter_cost_hr", "scanner_cost_hr", "auditor_controller_cost_hr",
       "assistant_co_ordinator_co_hr", "co_ordinator_cost_hr",
       "updates_amount", "paysheet_amount"] ∧
    transformFinCell none = none ∧
    (∀ s : String, strTrim s = "" → transformFinCell (some s) = none) ∧
    (∀ s : String, strTrim s ≠ "" → transformFinCell (some s) = parseFloat s) ∧
    (∀ x : Option String, transformFinCell x = none ∨
      ∃ q : ℚ, transformFinCell x = some q) ∧
    (∀ col : List (Option String), transformFinColumn col = col.map transformFinCell) ∧
    transformFinCell (some "7.25") = some (7.25 : ℚ) ∧
    transformFinCell (some "abc") = none := by
  refine ⟨rfl, rfl, ?_, ?_, ?_, fun col => rfl, ?_, ?_⟩
  · intro s hs
    simp [transformFinCell, hs]
  · intro s hs
    simp [transformFinCell, hs]
  · intro x
    rcases hv : transformFinCell x with _ | q
    · exact Or.inl rfl
    · exact Or.inr ⟨q, rfl⟩
  · have ht : strTrim "7.25" = "7.25" := by decide
    have h : splitDot "7.25".data = (['7'], some ['2','5']) := by decide
    simp [transformFinCell, ht, parseFloat, parseUnsigned, h, digitsToNat]
    norm_num
  · have ht : strTrim "abc" = "abc" := by decide
    have h : splitDot "abc".data = (['a','b','c'], none) := by decide
    simp [transformFinCell, ht, parseFloat, parseUnsigned, h]

/-- Claim C7 witness: a whitespace-only cell becomes null, a numeric cell
its float value. -/
theorem claim_C7_witness :
    transformFinCell (some "   ") = none ∧
    transformFinCell (some "7.25") = some (7.25 : ℚ) := by
  constructor
  · exact claim_C7_financials_normalize.2.2.1 "   " (by decide)
  · exact claim_C7_financials_normalize.2.2.2.2.2.2.1

/-- Claim C8: a failing query makes ingest_table fail with an error whose
message starts with the stable "Database read failed" kind and embeds the
original cause (no fallback to a successful result, single attempt by
construction); a successful query returns the full contents unchanged. -/
theorem claim_C8_read_failure (α : Type) (q : Except String α) :
    (∀ t : α, q = .ok t → ingest_table q = .ok t) ∧
    (∀ e : String, q = .error e →
      ingest_table q = .error ("Database read failed from " ++ e) ∧
      "Database read failed".data.IsPrefix ("Database read failed from " ++ e).data ∧
      e.data.IsSuffix ("Database read failed from " ++ e).data ∧
      ∀ t : α, ingest_table q ≠ .ok t) := by
  constructor
  · rintro t rfl
    rfl
  · rintro e rfl
    refine ⟨rfl, ?_, ?_, ?_⟩
    · have h : ("Database read failed from " ++ e).data =
          "Database read failed".data ++ (" from ".data ++ e.data) := by
        have h2 : ("Database read failed from " : String) =
            "Database read failed" ++ " from " := by decide
        rw [h2]
        simp [String.data_append]
      exact ⟨" from ".data ++ e.data, h.symm⟩
    · exact ⟨"Database read failed from ".data, by simp [String.data_append]⟩
    · intro t h
      simp [ingest_table] at h

/-- Claim C8 witness: a concrete failing query and a concrete successful
query. -/
theorem claim_C8_witness :
    ingest_table (Except.error "connection refused" : Except String Nat) =
      Except.error "Database read failed from connection refused" ∧
    ingest_table (Except.ok 7 : Except String Nat) = Except.ok 7 := by
  constructor
  · have h := (claim_C8_read_failure Nat (Except.error "connection refused")).2
      "connection refused" rfl
    have he : ("Database read failed from " ++ "connection refused" : String) =
        "Database read failed from connection refused" := by decide
    rw [he] at h
    exact h.1
  · exact (claim_C8_read_failure Nat (Except.ok 7)).1 7 rfl

/-- Claim C9: when the duration falls back to the time-based computation,
the result is the whole number of hours of the (overnight-corrected)
minute difference, truncated toward zero: an integer n with
n ≤ diff/60 < n+1, so any fractional part of the shift length is
discarded — an 8.5-hour shift (9:00 to 17:30) yields 8. -/
theorem claim_C9_truncated_hours (r : BookingRow) (a f : Nat)
    (hd : r.duration = none) (hh : r.hours_worked = none)
    (ha : r.arrival_time = some a) (hf : r.finish_time = some f) :
    (∃ n : ℕ, bookingDuration r = some (.num (n : ℚ)) ∧
      n = (if f < a then f + 1440 - a else f - a) / 60 ∧
      (n : ℚ) ≤ ((if f < a then f + 1440 - a else f - a : Nat) : ℚ) / 60 ∧
      ((if f < a then f + 1440 - a else f - a : Nat) : ℚ) / 60 < (n : ℚ) + 1) ∧
    bookingDuration ⟨some 540, some 1050, none, none⟩ = some (.num 8) := by
  constructor
  · refine ⟨(if f < a then f + 1440 - a else f - a) / 60, ?_, rfl, ?_, ?_⟩
    · simp only [bookingDuration, fillNanCell, hd, hh, coalesce2,
        timeBasedDuration, ha, hf]
      split <;> simp
    · set d := (if f < a then f + 1440 - a else f - a) with hdd
      rw [le_div_iff₀ (by norm_num)]
      exact_mod_cast Nat.div_mul_le_self d 60
    · set d := (if f < a then f + 1440 - a else f - a) with hdd
      rw [div_lt_iff₀ (by norm_num)]
      have h : d < (d / 60 + 1) * 60 := by omega
      exact_mod_cast h
  · simp [bookingDuration, fillNanCell, coalesce2, timeBasedDuration]

/-- Claim C9 witness: the 8.5-hour shift example truncates to 8. -/
theorem claim_C9_witness :
    bookingDuration ⟨some 540, some 1050, none, none⟩ = some (.num 8) :=
  (claim_C9_truncated_hours ⟨some 540, some 1050, none, none⟩
    540 1050 rfl rfl rfl rfl).2

/-- Claim C10: a null amount cell fails the sentinel filter — with a
non-null invoice the mask is null (the Kleene conjunction of a null
comparison and true), and with any invoice the row is dropped — so no
null-amount row reaches the select/aggregate stage at all. -/
theorem claim_C10_null_amount_dropped (r : PaysheetRow) (rows : List PaysheetRow) :
    (r.amount = none → keepRow r = false) ∧
    (r.amount = none → r.invoice ≠ none → filterMask r = none) ∧
    (∀ x ∈ rows.filter keepRow, x.amount ≠ none) ∧
    (∀ p ∈ selectStage rows,
      ∃ x ∈ rows, keepRow x = true ∧ x.amount ≠ none ∧
        p = (x.invoice, cleanCell x.amount)) := by
  refine ⟨?_, ?_, ?_, ?_⟩
  · intro ha
    rcases hi : r.invoice with _ | v <;>
      simp [keepRow, filterMask, ha, hi, kleeneAnd]
  · intro ha hi
    rcases hiv : r.invoice with _ | v
    · exact absurd hiv hi
    · simp [filterMask, ha, hiv, kleeneAnd]
  · intro x hx
    rw [List.mem_filter] at hx
    exact keep_amount_isSome x hx.2
  · intro p hp
    unfold selectStage at hp
    simp only [List.mem_map, List.mem_filter] at hp
    rcases hp with ⟨x, ⟨hx, hk⟩, rfl⟩
    exact ⟨x, hx, hk, keep_amount_isSome x hk, rfl⟩

/-- Claim C10 witness: a row with invoice "I3" and null amount is dropped
and its mask is null. -/
theorem claim_C10_witness :
    keepRow ⟨some "I3", none⟩ = false ∧ filterMask ⟨some "I3", none⟩ = none := by
  have h := claim_C10_null_amount_dropped ⟨some "I3", none⟩ []
  exact ⟨h.1 rfl, h.2.1 rfl (by simp)⟩

end Allstake
